import Mathlib

/-!
Verification of the ASES membership-application workflow backend.

The definitions below are a shallow embedding of the TypeScript source:

* `src/backend/src/utils/applicationCompleteness.ts` — the completeness
  evaluator (`requiredFieldIds`, `hasNonEmptyValue`,
  `getMissingRequiredApplicationFields`);
* `src/backend/src/storage/minio.ts` — the storage gateway
  (`mimeToExtension`, `buildPaymentProofObjectKey`,
  `paymentProofObjectExists`);
* `src/backend/src/routes/onboarding.ts` — the applicant routes
  (`startApplication`, `submitApplication`, `reapply`,
  `requestProofUploadUrl`);
* `src/backend/src/routes/admin.ts` — the admin routes (`verifyPayment`,
  `decideApplication`);
* `src/backend/prisma/migrations/20260211124017_initial/migration.sql` —
  the `Application` table and its unique index on `userId`.

JavaScript runtime values appearing in the open `answers` map are modelled
by `JsValue`; timestamps (`Date` values) are modelled by `Nat`; every
effectful external call (object-storage HEAD request, pre-signed URL
creation, `Date.now()`, `randomUUID()`) is passed in as an explicit
argument.  Each route handler becomes a pure function returning
`Except HttpErr Application`: in the source every `throw new HttpError`
happens before the single `prisma.application.update`/`create` call, so an
`error` result means the stored record is unchanged.
-/

namespace Ases

/-- A JavaScript runtime value as it can occur in the `answers` JSON map.
`vNum` carries the `Number.isFinite` flag (false for `NaN`/`±Infinity`)
together with an integer approximation of the value (unused by the code
modelled here, which only inspects finiteness). -/
inductive JsValue where
  | vNull
  | vUndefined
  | vBool (b : Bool)
  | vNum (finite : Bool) (val : Int)
  | vStr (s : String)
  | vArr (elems : List JsValue)
  | vObj (entries : List (String × JsValue))

/-- An `answers` object: an ordered association list of fields.  Keys are
unique in a JavaScript object; property access ignores the order. -/
abbrev Answers := List (String × JsValue)

/-- JavaScript property access `answers[fieldId]`: the stored value, or
`undefined` when the key is absent. -/
def getAnswer (answers : Answers) (fieldId : String) : JsValue :=
  match answers.lookup fieldId with
  | some v => v
  | none => JsValue.vUndefined

/-- `requiredFieldIds` from `applicationCompleteness.ts`. -/
def requiredFieldIds : List String :=
  ["email", "fullName", "universityAndBranch", "currentYearLevelAndProgram",
   "facebookLink", "resumeOrCv", "hobbiesAndInterests", "personalWhy",
   "currentBuildingOrWantToBuild", "whyAsesManila", "oneToTwoYearVision",
   "fiveYearVision", "uniqueAboutYou", "memberType", "universityType",
   "amountPaid", "referenceNumber"]

/-- `hasNonEmptyValue` from `applicationCompleteness.ts`: `value == null`
is false; strings must have non-empty trim; numbers must be finite;
booleans always count; arrays and objects must be non-empty. -/
def hasNonEmptyValue : JsValue → Bool
  | .vNull => false
  | .vUndefined => false
  | .vStr s => decide (0 < s.trim.length)
  | .vNum finite _ => finite
  | .vBool _ => true
  | .vArr elems => decide (0 < elems.length)
  | .vObj entries => decide (0 < entries.length)

/-- `getMissingRequiredApplicationFields` from `applicationCompleteness.ts`:
filter the canonical required list for fields whose value is missing. -/
def getMissingRequiredApplicationFields (answers : Answers) : List String :=
  requiredFieldIds.filter (fun fieldId => !hasNonEmptyValue (getAnswer answers fieldId))

/-- The spec's wording of field presence, for comparison with
`hasNonEmptyValue`: present iff "a non-empty trimmed string, a finite
number, a boolean, a non-empty array, or a non-empty object — everything
else (null, undefined, empty string, NaN) counts as missing". -/
def presentPerSpec : JsValue → Bool
  | .vStr s => decide (s.trim ≠ "")
  | .vNum finite _ => finite
  | .vBool _ => true
  | .vArr elems => !elems.isEmpty
  | .vObj entries => !entries.isEmpty
  | .vNull => false
  | .vUndefined => false

/-! ## Storage gateway (`minio.ts`) -/

/-- The `mimeToExtension` record from `minio.ts`. -/
def mimeToExtension (contentType : String) : Option String :=
  if contentType = "image/jpeg" then some "jpg"
  else if contentType = "image/png" then some "png"
  else if contentType = "image/webp" then some "webp"
  else none

/-- `paymentProofAllowedMimeTypes = Object.keys(mimeToExtension)`. -/
def paymentProofAllowedMimeTypes : List String :=
  ["image/jpeg", "image/png", "image/webp"]

/-- `isAllowedPaymentProofMime` from `minio.ts`. -/
def isAllowedPaymentProofMime (contentType : String) : Bool :=
  paymentProofAllowedMimeTypes.contains contentType

/-- `paymentProofMaxBytes = 10 * 1024 * 1024`. -/
def paymentProofMaxBytes : Nat := 10 * 1024 * 1024

/-- `buildPaymentProofObjectKey` from `minio.ts`.  `Date.now()` and
`randomUUID()` are effects, passed in as `nowMs` and `uuid`. -/
def buildPaymentProofObjectKey (userId contentType : String) (nowMs : Nat)
    (uuid : String) : String :=
  let extension := (mimeToExtension contentType).getD "bin"
  "applications/" ++ userId ++ "/payment-proof-" ++ toString nowMs ++ "-" ++
    uuid ++ "." ++ extension

/-- `paymentProofObjectExists` from `minio.ts`.  `headResult` is the result
of the S3 `HeadObjectCommand`: `.ok ()` when the object was found, and
`.error name` when the request threw an error with the given `name`.  Only
the error named `NotFound` is treated as "confirmed absent"; every other
error is re-thrown. -/
def paymentProofObjectExists (headResult : Except String Unit) :
    Except String Bool :=
  match headResult with
  | .ok _ => .ok true
  | .error name => if name = "NotFound" then .ok false else .error name

/-! ## Application record (`migration.sql`) -/

/-- The `ApplicationStatus` enum. -/
inductive AppStatus where
  | DRAFT
  | PENDING
  | ACCEPTED
  | REJECTED
deriving DecidableEq

/-- A row of the `Application` table.  `submittedAt` is NOT NULL in the
schema; the review/payment metadata columns are nullable. -/
structure Application where
  id : String
  userId : String
  answersJson : Answers
  status : AppStatus
  paymentProofKey : Option String
  paymentProofUploadedAt : Option Nat
  paymentVerifiedAt : Option Nat
  paymentVerifiedByUserId : Option String
  submittedAt : Nat
  reviewedAt : Option Nat
  reviewedByUserId : Option String
  decisionNote : Option String

/-- An `HttpError(statusCode, code, message, details?)` value, reduced to
the data the claims are about: the HTTP status and the stable error kind. -/
structure HttpErr where
  statusCode : Nat
  code : String
deriving DecidableEq

/-! ## Applicant routes (`onboarding.ts`, application router) -/

/-- `POST /application` (submit) from `onboarding.ts`: guard chain is
not-started, REJECTED (redirect to reapply), non-DRAFT (already
submitted), completeness (required fields and payment proof); then a
single update snapshots the answers, flips the status to PENDING, stamps
`submittedAt` and clears all review/decision/verification metadata. -/
def submitApplication (existing : Option Application) (answers : Answers)
    (now : Nat) : Except HttpErr Application :=
  match existing with
  | none => .error ⟨409, "application_not_started"⟩
  | some app =>
    if app.status = .REJECTED then
      .error ⟨409, "use_reapply_endpoint"⟩
    else if app.status ≠ .DRAFT then
      .error ⟨409, "application_already_submitted"⟩
    else
      let missingRequiredFields := getMissingRequiredApplicationFields answers
      let missingPaymentProof := app.paymentProofKey.isNone
      if 0 < missingRequiredFields.length ∨ missingPaymentProof = true then
        .error ⟨409, "application_incomplete"⟩
      else
        .ok { app with
              answersJson := answers
              status := .PENDING
              submittedAt := now
              reviewedAt := none
              reviewedByUserId := none
              decisionNote := none
              paymentVerifiedAt := none
              paymentVerifiedByUserId := none }

/-- `POST /application/reapply` from `onboarding.ts`: guard chain is
not-found, non-REJECTED (`cannot_reapply`), completeness; the success
update is identical to `submitApplication`'s. -/
def reapply (existing : Option Application) (answers : Answers)
    (now : Nat) : Except HttpErr Application :=
  match existing with
  | none => .error ⟨404, "application_not_found"⟩
  | some app =>
    if app.status ≠ .REJECTED then
      .error ⟨409, "cannot_reapply"⟩
    else
      let missingRequiredFields := getMissingRequiredApplicationFields answers
      let missingPaymentProof := app.paymentProofKey.isNone
      if 0 < missingRequiredFields.length ∨ missingPaymentProof = true then
        .error ⟨409, "application_incomplete"⟩
      else
        .ok { app with
              answersJson := answers
              status := .PENDING
              submittedAt := now
              reviewedAt := none
              reviewedByUserId := none
              decisionNote := none
              paymentVerifiedAt := none
              paymentVerifiedByUserId := none }

/-- The pre-signed upload URL returned by `createPaymentProofUploadUrl`. -/
structure SignedUpload where
  uploadUrl : String
  expiresIn : Nat

/-- `POST /application/payment-proof/upload-url` from `onboarding.ts`.
`objectKey` is the key already produced by `buildPaymentProofObjectKey`,
and `signed` is the outcome of the `createPaymentProofUploadUrl` call
(`.error` when the storage gateway threw).  The body's `contentType` and
`contentLength` were validated by `paymentProofUploadUrlSchema` before the
handler runs, so they do not appear here.  On success the update attaches
the fresh key, stamps `paymentProofUploadedAt` and clears the payment
verification fields. -/
def requestProofUploadUrl (existing : Option Application) (objectKey : String)
    (signed : Except String SignedUpload) (now : Nat) :
    Except HttpErr Application :=
  match existing with
  | none => .error ⟨409, "application_not_started"⟩
  | some app =>
    if app.status = .PENDING ∨ app.status = .ACCEPTED then
      .error ⟨409, "payment_proof_locked"⟩
    else
      match signed with
      | .error _ => .error ⟨500, "storage_unavailable"⟩
      | .ok _ =>
        .ok { app with
              paymentProofKey := some objectKey
              paymentProofUploadedAt := some now
              paymentVerifiedAt := none
              paymentVerifiedByUserId := none }

/-- The fresh DRAFT record created by `POST /application/start`:
`answersJson = {}`, `status = DRAFT`, `submittedAt = now`. -/
def newDraftApplication (userId newId : String) (now : Nat) : Application :=
  { id := newId
    userId := userId
    answersJson := []
    status := .DRAFT
    paymentProofKey := none
    paymentProofUploadedAt := none
    paymentVerifiedAt := none
    paymentVerifiedByUserId := none
    submittedAt := now
    reviewedAt := none
    reviewedByUserId := none
    decisionNote := none }

/-- `prisma.application.findUnique({ where: { userId } })` over a list
model of the `Application` table. -/
def findApplicationByUserId (db : List Application) (userId : String) :
    Option Application :=
  db.find? (fun a => a.userId == userId)

/-- `prisma.application.create` as constrained by the storage layer's
`Application_userId_key` unique index (`migration.sql`): inserting a row
whose `userId` already occurs fails instead of creating a duplicate. -/
def dbCreateApplication (db : List Application) (app : Application) :
    Except HttpErr (List Application) :=
  if db.any (fun a => a.userId == app.userId) then
    .error ⟨409, "unique_constraint_violation"⟩
  else
    .ok (db ++ [app])

/-- `POST /application/start` from `onboarding.ts`, run against the table
model: return the existing record untouched when one exists (`created =
false`), otherwise create a fresh DRAFT row through the unique-indexed
insert.  The result carries the table after the call, the `created` flag
and the returned record. -/
def startApplication (db : List Application) (userId newId : String)
    (now : Nat) : Except HttpErr (List Application × Bool × Application) :=
  match findApplicationByUserId db userId with
  | some existing => .ok (db, false, existing)
  | none =>
    let created := newDraftApplication userId newId now
    match dbCreateApplication db created with
    | .error e => .error e
    | .ok db2 => .ok (db2, true, created)

/-! ## Admin routes (`admin.ts`) -/

/-- `POST /admin/applications/:id/payment-verify` from `admin.ts`.
`headResult` is the outcome of the S3 HEAD request for the stored key, fed
through `paymentProofObjectExists` exactly as in the source.  Guard chain:
not-found, missing proof key, DRAFT status, storage error, confirmed
absent; the success update stamps `paymentVerifiedAt`/`ByUserId`. -/
def verifyPayment (existing : Option Application) (adminId : String)
    (headResult : Except String Unit) (now : Nat) :
    Except HttpErr Application :=
  match existing with
  | none => .error ⟨404, "application_not_found"⟩
  | some app =>
    if app.paymentProofKey = none then
      .error ⟨409, "payment_proof_missing"⟩
    else if app.status = .DRAFT then
      .error ⟨409, "application_not_submitted"⟩
    else
      match paymentProofObjectExists headResult with
      | .error _ => .error ⟨500, "storage_unavailable"⟩
      | .ok false => .error ⟨409, "payment_proof_not_found"⟩
      | .ok true =>
        .ok { app with
              paymentVerifiedAt := some now
              paymentVerifiedByUserId := some adminId }

/-- The decision body's `status` field, restricted by
`applicationDecisionSchema` to ACCEPTED or REJECTED. -/
inductive DecisionOutcome where
  | ACCEPTED
  | REJECTED
deriving DecidableEq

/-- The application status written by a decision. -/
def DecisionOutcome.toStatus : DecisionOutcome → AppStatus
  | .ACCEPTED => .ACCEPTED
  | .REJECTED => .REJECTED

/-- `POST /admin/applications/:id/decision` from `admin.ts`.  Guard chain:
not-found, DRAFT status (`application_not_submitted`), and — only for an
ACCEPTED outcome — a null `paymentVerifiedAt` (`payment_not_verified`);
the update writes the outcome status and the review metadata. -/
def decideApplication (existing : Option Application) (adminId : String)
    (outcome : DecisionOutcome) (decisionNote : Option String) (now : Nat) :
    Except HttpErr Application :=
  match existing with
  | none => .error ⟨404, "application_not_found"⟩
  | some app =>
    if app.status = .DRAFT then
      .error ⟨409, "application_not_submitted"⟩
    else if outcome = .ACCEPTED ∧ app.paymentVerifiedAt = none then
      .error ⟨409, "payment_not_verified"⟩
    else
      .ok { app with
            status := outcome.toStatus
            reviewedAt := some now
            reviewedByUserId := some adminId
            decisionNote := decisionNote }

/-! ## Concrete sample data for witnesses and counterexamples -/

/-- A freshly started application: DRAFT, empty answers, nothing uploaded,
nothing reviewed (the record `POST /application/start` creates). -/
def baseApplication : Application :=
  { id := "app-1"
    userId := "user-1"
    answersJson := []
    status := .DRAFT
    paymentProofKey := none
    paymentProofUploadedAt := none
    paymentVerifiedAt := none
    paymentVerifiedByUserId := none
    submittedAt := 0
    reviewedAt := none
    reviewedByUserId := none
    decisionNote := none }

/-- An answers map filling every required field. -/
def sampleCompleteAnswers : Answers :=
  requiredFieldIds.map (fun f => (f, JsValue.vBool true))

/-- An ACCEPTED application after a full successful cycle: proof uploaded,
payment verified, accepted by an admin. -/
def acceptedApplication : Application :=
  { baseApplication with
    status := .ACCEPTED
    paymentProofKey := some "proof-1"
    paymentProofUploadedAt := some 1
    paymentVerifiedAt := some 2
    paymentVerifiedByUserId := some "admin-1"
    submittedAt := 1
    reviewedAt := some 3
    reviewedByUserId := some "admin-1" }

/-! ## Helper lemmas -/

lemma string_length_pos_iff (t : String) : 0 < t.length ↔ t ≠ "" := by
  rw [← String.length_data, List.length_pos]
  constructor
  · intro h he
    subst he
    exact h rfl
  · intro h hd
    exact h (String.ext hd)

lemma hasNonEmptyValue_eq_presentPerSpec (v : JsValue) :
    hasNonEmptyValue v = presentPerSpec v := by
  cases v with
  | vStr s =>
    show decide (0 < s.trim.length) = decide (s.trim ≠ "")
    exact decide_eq_decide.mpr (string_length_pos_iff s.trim)
  | vArr elems => cases elems <;> simp [hasNonEmptyValue, presentPerSpec]
  | vObj entries => cases entries <;> simp [hasNonEmptyValue, presentPerSpec]
  | vNull => rfl
  | vUndefined => rfl
  | vBool b => rfl
  | vNum finite val => rfl

/-! ## Theorems for the claims -/

/-- Claim C7: for every answers map, `getMissingRequiredApplicationFields`
returns exactly the identifiers of the fixed required-field list whose
value is missing — where presence is exactly the spec's predicate
(non-empty trimmed string, finite number, any boolean, non-empty array,
non-empty object; everything else missing) — listed in the canonical
field-list order, identical across repeated calls, and independent of the
answer map's key insertion order (any two maps that agree as key→value
functions give the same result). -/
theorem getMissingRequiredApplicationFields_correct (a b : Answers)
    (hagree : ∀ k, getAnswer a k = getAnswer b k) :
    getMissingRequiredApplicationFields a = getMissingRequiredApplicationFields b ∧
    List.Sublist (getMissingRequiredApplicationFields a) requiredFieldIds ∧
    (∀ f, f ∈ getMissingRequiredApplicationFields a ↔
       f ∈ requiredFieldIds ∧ hasNonEmptyValue (getAnswer a f) = false) ∧
    (∀ v, hasNonEmptyValue v = presentPerSpec v) := by
  refine ⟨?_, ?_, ?_, hasNonEmptyValue_eq_presentPerSpec⟩
  · exact List.filter_congr (fun x _ => by rw [hagree x])
  · exact List.filter_sublist _
  · intro f
    simp [getMissingRequiredApplicationFields, List.mem_filter]

/-- Witness for C7 at two concrete maps that differ only in key insertion
order (and agree as key→value functions). -/
theorem getMissingRequiredApplicationFields_correct_witness :
    (getMissingRequiredApplicationFields
        [("email", JsValue.vBool true), ("fullName", JsValue.vStr "Ada")] =
      getMissingRequiredApplicationFields
        [("fullName", JsValue.vStr "Ada"), ("email", JsValue.vBool true)]) ∧
    List.Sublist
      (getMissingRequiredApplicationFields
        [("email", JsValue.vBool true), ("fullName", JsValue.vStr "Ada")])
      requiredFieldIds ∧
    (∀ f, f ∈ getMissingRequiredApplicationFields
        [("email", JsValue.vBool true), ("fullName", JsValue.vStr "Ada")] ↔
       f ∈ requiredFieldIds ∧
       hasNonEmptyValue
         (getAnswer [("email", JsValue.vBool true), ("fullName", JsValue.vStr "Ada")] f) =
         false) ∧
    (∀ v, hasNonEmptyValue v = presentPerSpec v) :=
  getMissingRequiredApplicationFields_correct
    [("email", JsValue.vBool true), ("fullName", JsValue.vStr "Ada")]
    [("fullName", JsValue.vStr "Ada"), ("email", JsValue.vBool true)]
    (fun k => by
      unfold getAnswer
      by_cases h1 : k = "email"
      · subst h1; rfl
      · by_cases h2 : k = "fullName"
        · subst h2; rfl
        · have e1 : (k == "email") = false := beq_eq_false_iff_ne.mpr h1
          have e2 : (k == "fullName") = false := beq_eq_false_iff_ne.mpr h2
          simp [List.lookup, e1, e2])

/-- Claim C10: `buildPaymentProofObjectKey` is total and never rejects its
input: for every `userId`, `contentType`, timestamp and uuid it returns a
key of the form `applications/<userId>/payment-proof-<timestamp>-<uuid>.<ext>`,
where the extension is the mapped one for the three allow-listed image
MIME types and falls back to `bin` for every other content type. -/
theorem buildPaymentProofObjectKey_total (userId contentType : String)
    (nowMs : Nat) (uuid : String) :
    ∃ ext : String,
      buildPaymentProofObjectKey userId contentType nowMs uuid =
        "applications/" ++ userId ++ "/payment-proof-" ++ toString nowMs ++
          "-" ++ uuid ++ "." ++ ext ∧
      (contentType = "image/jpeg" → ext = "jpg") ∧
      (contentType = "image/png" → ext = "png") ∧
      (contentType = "image/webp" → ext = "webp") ∧
      (isAllowedPaymentProofMime contentType = false → ext = "bin") := by
  by_cases h1 : contentType = "image/jpeg"
  · subst h1
    exact ⟨"jpg", rfl, fun _ => rfl,
      fun h => absurd h (by decide), fun h => absurd h (by decide),
      fun h => absurd h (by decide)⟩
  by_cases h2 : contentType = "image/png"
  · subst h2
    exact ⟨"png", rfl, fun h => absurd h (by decide), fun _ => rfl,
      fun h => absurd h (by decide), fun h => absurd h (by decide)⟩
  by_cases h3 : contentType = "image/webp"
  · subst h3
    exact ⟨"webp", rfl, fun h => absurd h (by decide),
      fun h => absurd h (by decide), fun _ => rfl,
      fun h => absurd h (by decide)⟩
  refine ⟨"bin", ?_, fun h => absurd h h1, fun h => absurd h h2,
    fun h => absurd h h3, fun _ => rfl⟩
  simp [buildPaymentProofObjectKey, mimeToExtension, h1, h2, h3]

/-- Witness for C10 at a concrete allow-listed type and, via the theorem's
universally quantified statement, concrete identifiers. -/
theorem buildPaymentProofObjectKey_total_witness :
    ∃ ext : String,
      buildPaymentProofObjectKey "user-1" "image/png" 1700000000000 "uuid-1" =
        "applications/" ++ "user-1" ++ "/payment-proof-" ++
          toString 1700000000000 ++ "-" ++ "uuid-1" ++ "." ++ ext ∧
      ("image/png" = "image/jpeg" → ext = "jpg") ∧
      ("image/png" = "image/png" → ext = "png") ∧
      ("image/png" = "image/webp" → ext = "webp") ∧
      (isAllowedPaymentProofMime "image/png" = false → ext = "bin") :=
  buildPaymentProofObjectKey_total "user-1" "image/png" 1700000000000 "uuid-1"

/-- Claim C1: for every DRAFT application with all required fields present
in the submitted answers and a non-null paymentProofKey, submit flips the
status to PENDING, snapshots the answers, stamps submittedAt and clears
reviewedAt/reviewedByUserId/decisionNote/paymentVerifiedAt/
paymentVerifiedByUserId; reapply from REJECTED performs the same snapshot,
flip and clears; both leave paymentProofKey unchanged. -/
theorem submit_and_reapply_snapshot (app : Application) (answers : Answers)
    (now : Nat) (key : String)
    (hkey : app.paymentProofKey = some key)
    (hcomplete : getMissingRequiredApplicationFields answers = []) :
    (app.status = .DRAFT →
      ∃ r, submitApplication (some app) answers now = .ok r ∧
        r.status = .PENDING ∧ r.answersJson = answers ∧ r.submittedAt = now ∧
        r.reviewedAt = none ∧ r.reviewedByUserId = none ∧
        r.decisionNote = none ∧ r.paymentVerifiedAt = none ∧
        r.paymentVerifiedByUserId = none ∧
        r.paymentProofKey = app.paymentProofKey ∧ r.id = app.id ∧
        r.userId = app.userId) ∧
    (app.status = .REJECTED →
      ∃ r, reapply (some app) answers now = .ok r ∧
        r.status = .PENDING ∧ r.answersJson = answers ∧ r.submittedAt = now ∧
        r.reviewedAt = none ∧ r.reviewedByUserId = none ∧
        r.decisionNote = none ∧ r.paymentVerifiedAt = none ∧
        r.paymentVerifiedByUserId = none ∧
        r.paymentProofKey = app.paymentProofKey ∧ r.id = app.id ∧
        r.userId = app.userId) := by
  constructor
  · intro hst
    have hnr : app.status ≠ AppStatus.REJECTED := by rw [hst]; intro h; cases h
    refine ⟨{ app with
        answersJson := answers
        status := .PENDING
        submittedAt := now
        reviewedAt := none
        reviewedByUserId := none
        decisionNote := none
        paymentVerifiedAt := none
        paymentVerifiedByUserId := none },
      ?_, rfl, rfl, rfl, rfl, rfl, rfl, rfl, rfl, rfl, rfl, rfl⟩
    simp [submitApplication, hst, hnr, hcomplete, hkey]
  · intro hst
    refine ⟨{ app with
        answersJson := answers
        status := .PENDING
        submittedAt := now
        reviewedAt := none
        reviewedByUserId := none
        decisionNote := none
        paymentVerifiedAt := none
        paymentVerifiedByUserId := none },
      ?_, rfl, rfl, rfl, rfl, rfl, rfl, rfl, rfl, rfl, rfl, rfl⟩
    simp [reapply, hst, hcomplete, hkey]

/-- Witness for C1: a concrete DRAFT application with an uploaded proof
key and a complete answers map. -/
theorem submit_and_reapply_snapshot_witness :
    (({ baseApplication with paymentProofKey := some "proof-1" } : Application).status
        = .DRAFT →
      ∃ r, submitApplication
          (some { baseApplication with paymentProofKey := some "proof-1" })
          sampleCompleteAnswers 7 = .ok r ∧
        r.status = .PENDING ∧ r.answersJson = sampleCompleteAnswers ∧
        r.submittedAt = 7 ∧ r.reviewedAt = none ∧ r.reviewedByUserId = none ∧
        r.decisionNote = none ∧ r.paymentVerifiedAt = none ∧
        r.paymentVerifiedByUserId = none ∧
        r.paymentProofKey =
          ({ baseApplication with paymentProofKey := some "proof-1" } : Application).paymentProofKey ∧
        r.id = ({ baseApplication with paymentProofKey := some "proof-1" } : Application).id ∧
        r.userId = ({ baseApplication with paymentProofKey := some "proof-1" } : Application).userId) ∧
    (({ baseApplication with paymentProofKey := some "proof-1" } : Application).status
        = .REJECTED →
      ∃ r, reapply
          (some { baseApplication with paymentProofKey := some "proof-1" })
          sampleCompleteAnswers 7 = .ok r ∧
        r.status = .PENDING ∧ r.answersJson = sampleCompleteAnswers ∧
        r.submittedAt = 7 ∧ r.reviewedAt = none ∧ r.reviewedByUserId = none ∧
        r.decisionNote = none ∧ r.paymentVerifiedAt = none ∧
        r.paymentVerifiedByUserId = none ∧
        r.paymentProofKey =
          ({ baseApplication with paymentProofKey := some "proof-1" } : Application).paymentProofKey ∧
        r.id = ({ baseApplication with paymentProofKey := some "proof-1" } : Application).id ∧
        r.userId = ({ baseApplication with paymentProofKey := some "proof-1" } : Application).userId) :=
  submit_and_reapply_snapshot
    { baseApplication with paymentProofKey := some "proof-1" }
    sampleCompleteAnswers 7 "proof-1" rfl (by rfl)

/-- Claim C6: for every existing application whose status is DRAFT,
PENDING or ACCEPTED, reapply fails with the cannot_reapply error kind (so
the handler throws before its update and the record is unmutated); reapply
can succeed only from REJECTED. -/
theorem reapply_only_from_rejected (app : Application) (answers : Answers)
    (now : Nat) :
    (app.status ≠ .REJECTED →
      reapply (some app) answers now = .error ⟨409, "cannot_reapply"⟩) ∧
    (∀ r, reapply (some app) answers now = .ok r →
      app.status = .REJECTED) := by
  constructor
  · intro h
    simp [reapply, h]
  · intro r hr
    by_contra hne
    simp [reapply, hne] at hr

/-- Witness for C6 at a concrete PENDING application. -/
theorem reapply_only_from_rejected_witness :
    (({ baseApplication with status := AppStatus.PENDING } : Application).status
        ≠ .REJECTED →
      reapply (some { baseApplication with status := AppStatus.PENDING })
          sampleCompleteAnswers 9 = .error ⟨409, "cannot_reapply"⟩) ∧
    (∀ r, reapply (some { baseApplication with status := AppStatus.PENDING })
          sampleCompleteAnswers 9 = .ok r →
      ({ baseApplication with status := AppStatus.PENDING } : Application).status
        = .REJECTED) :=
  reapply_only_from_rejected
    { baseApplication with status := AppStatus.PENDING }
    sampleCompleteAnswers 9

/-- Claim C9: submitting while the application status is REJECTED fails
with the dedicated use_reapply_endpoint error kind — that branch precedes
the generic already-submitted branch, so the rejected applicant never
receives application_already_submitted — and the handler throws before its
update, leaving the record unchanged. -/
theorem submit_rejected_redirects_to_reapply (app : Application)
    (answers : Answers) (now : Nat) (h : app.status = .REJECTED) :
    submitApplication (some app) answers now =
      .error ⟨409, "use_reapply_endpoint"⟩ ∧
    (⟨409, "use_reapply_endpoint"⟩ : HttpErr) ≠
      ⟨409, "application_already_submitted"⟩ := by
  refine ⟨by simp [submitApplication, h], by decide⟩

/-- Witness for C9 at a concrete REJECTED application with a complete
payload, showing the early branch wins even for a submittable record. -/
theorem submit_rejected_redirects_to_reapply_witness :
    submitApplication
        (some { baseApplication with
                status := AppStatus.REJECTED
                paymentProofKey := some "proof-1" })
        sampleCompleteAnswers 4 =
      .error ⟨409, "use_reapply_endpoint"⟩ ∧
    (⟨409, "use_reapply_endpoint"⟩ : HttpErr) ≠
      ⟨409, "application_already_submitted"⟩ :=
  submit_rejected_redirects_to_reapply
    { baseApplication with
      status := AppStatus.REJECTED
      paymentProofKey := some "proof-1" }
    sampleCompleteAnswers 4 rfl

/-- Counterexample to C2 as stated: a DRAFT application with null
paymentVerifiedAt.  decide(ACCEPTED) does fail, but with the
application_not_submitted kind (the DRAFT guard precedes the payment
guard), not payment_not_verified. -/
theorem decide_accept_unverified_draft_counterexample :
    baseApplication.status = .DRAFT ∧
    baseApplication.paymentVerifiedAt = none ∧
    decideApplication (some baseApplication) "admin-1" .ACCEPTED none 5 =
      .error ⟨409, "application_not_submitted"⟩ ∧
    (⟨409, "application_not_submitted"⟩ : HttpErr) ≠
      ⟨409, "payment_not_verified"⟩ :=
  ⟨rfl, rfl, rfl, by decide⟩

/-- Claim C2 (amended): for every application whose status is not DRAFT
(a DRAFT application fails earlier with application_not_submitted), a
decide(ACCEPTED) call with paymentVerifiedAt null fails with the
payment_not_verified error kind (the handler throws before its update, so
the record is unchanged), and a decide(ACCEPTED) call succeeds only when
paymentVerifiedAt is non-null at the moment of the decision; consequently
the accepted record has status ACCEPTED with paymentVerifiedAt carried
over unchanged and non-null — set before the reviewedAt the accepting
decision writes. -/
theorem decide_accept_requires_payment_verification (app : Application)
    (adminId : String) (note : Option String) (now : Nat)
    (hnd : app.status ≠ .DRAFT) :
    (app.paymentVerifiedAt = none →
      decideApplication (some app) adminId .ACCEPTED note now =
        .error ⟨409, "payment_not_verified"⟩) ∧
    (∀ r, decideApplication (some app) adminId .ACCEPTED note now = .ok r →
      app.paymentVerifiedAt ≠ none ∧ r.status = .ACCEPTED ∧
      r.paymentVerifiedAt = app.paymentVerifiedAt ∧
      r.reviewedAt = some now ∧ r.reviewedByUserId = some adminId) := by
  constructor
  · intro hv
    simp [decideApplication, hnd, hv]
  · intro r hr
    by_cases hv : app.paymentVerifiedAt = none
    · simp [decideApplication, hnd, hv] at hr
    · simp [decideApplication, hnd, hv] at hr
      subst hr
      exact ⟨hv, rfl, rfl, rfl, rfl⟩

/-- Witness for C2 at a concrete PENDING application with no verified
payment. -/
theorem decide_accept_requires_payment_verification_witness :
    (({ baseApplication with
        status := AppStatus.PENDING
        paymentProofKey := some "proof-1" } : Application).paymentVerifiedAt = none →
      decideApplication
          (some { baseApplication with
                  status := AppStatus.PENDING
                  paymentProofKey := some "proof-1" })
          "admin-1" .ACCEPTED none 8 =
        .error ⟨409, "payment_not_verified"⟩) ∧
    (∀ r, decideApplication
          (some { baseApplication with
                  status := AppStatus.PENDING
                  paymentProofKey := some "proof-1" })
          "admin-1" .ACCEPTED none 8 = .ok r →
      ({ baseApplication with
         status := AppStatus.PENDING
         paymentProofKey := some "proof-1" } : Application).paymentVerifiedAt ≠ none ∧
      r.status = .ACCEPTED ∧
      r.paymentVerifiedAt =
        ({ baseApplication with
           status := AppStatus.PENDING
           paymentProofKey := some "proof-1" } : Application).paymentVerifiedAt ∧
      r.reviewedAt = some 8 ∧ r.reviewedByUserId = some "admin-1") :=
  decide_accept_requires_payment_verification
    { baseApplication with
      status := AppStatus.PENDING
      paymentProofKey := some "proof-1" }
    "admin-1" none 8 (by intro h; cases h)

/-- Counterexample to C5: decide(REJECTED) on an already-ACCEPTED
application succeeds and flips the status to REJECTED; the route only
blocks DRAFT applications. -/
theorem decide_accepted_to_rejected_counterexample :
    acceptedApplication.status = .ACCEPTED ∧
    decideApplication (some acceptedApplication) "admin-2" .REJECTED
        (some "changed my mind") 9 =
      .ok { acceptedApplication with
            status := .REJECTED
            reviewedAt := some 9
            reviewedByUserId := some "admin-2"
            decisionNote := some "changed my mind" } ∧
    ({ acceptedApplication with
       status := AppStatus.REJECTED
       reviewedAt := some 9
       reviewedByUserId := some "admin-2"
       decisionNote := some "changed my mind" } : Application).status =
      .REJECTED :=
  ⟨rfl, rfl, rfl⟩

/-- Claim C5 (amended): decide is blocked only on DRAFT status — for a
DRAFT application either outcome fails with application_not_submitted and
the handler throws before its update; for every non-DRAFT application
(PENDING, ACCEPTED or REJECTED) decide proceeds: decide(REJECTED) always
succeeds and decide(ACCEPTED) succeeds exactly when paymentVerifiedAt is
non-null — so an already-ACCEPTED application can transition to REJECTED
through decide. -/
theorem decide_blocked_only_on_draft (app : Application) (adminId : String)
    (note : Option String) (now : Nat) :
    (app.status = .DRAFT → ∀ outcome,
      decideApplication (some app) adminId outcome note now =
        .error ⟨409, "application_not_submitted"⟩) ∧
    (app.status ≠ .DRAFT →
      decideApplication (some app) adminId .REJECTED note now =
        .ok { app with
              status := .REJECTED
              reviewedAt := some now
              reviewedByUserId := some adminId
              decisionNote := note }) ∧
    (app.status ≠ .DRAFT → app.paymentVerifiedAt ≠ none →
      decideApplication (some app) adminId .ACCEPTED note now =
        .ok { app with
              status := .ACCEPTED
              reviewedAt := some now
              reviewedByUserId := some adminId
              decisionNote := note }) := by
  refine ⟨?_, ?_, ?_⟩
  · intro h outcome
    simp [decideApplication, h]
  · intro h
    simp [decideApplication, h, DecisionOutcome.toStatus]
  · intro h hv
    simp [decideApplication, h, hv, DecisionOutcome.toStatus]

/-- Witness for C5 at a concrete REJECTED application with verified
payment: both non-DRAFT branches are exercised concretely. -/
theorem decide_blocked_only_on_draft_witness :
    (({ baseApplication with
        status := AppStatus.REJECTED
        paymentVerifiedAt := some 2 } : Application).status = .DRAFT →
      ∀ outcome,
        decideApplication
            (some { baseApplication with
                    status := AppStatus.REJECTED
                    paymentVerifiedAt := some 2 })
            "admin-1" outcome none 6 =
          .error ⟨409, "application_not_submitted"⟩) ∧
    (({ baseApplication with
        status := AppStatus.REJECTED
        paymentVerifiedAt := some 2 } : Application).status ≠ .DRAFT →
      decideApplication
          (some { baseApplication with
                  status := AppStatus.REJECTED
                  paymentVerifiedAt := some 2 })
          "admin-1" .REJECTED none 6 =
        .ok { { baseApplication with
                status := AppStatus.REJECTED
                paymentVerifiedAt := some 2 } with
              status := .REJECTED
              reviewedAt := some 6
              reviewedByUserId := some "admin-1"
              decisionNote := none }) ∧
    (({ baseApplication with
        status := AppStatus.REJECTED
        paymentVerifiedAt := some 2 } : Application).status ≠ .DRAFT →
      ({ baseApplication with
         status := AppStatus.REJECTED
         paymentVerifiedAt := some 2 } : Application).paymentVerifiedAt ≠ none →
      decideApplication
          (some { baseApplication with
                  status := AppStatus.REJECTED
                  paymentVerifiedAt := some 2 })
          "admin-1" .ACCEPTED none 6 =
        .ok { { baseApplication with
                status := AppStatus.REJECTED
                paymentVerifiedAt := some 2 } with
              status := .ACCEPTED
              reviewedAt := some 6
              reviewedByUserId := some "admin-1"
              decisionNote := none }) :=
  decide_blocked_only_on_draft
    { baseApplication with
      status := AppStatus.REJECTED
      paymentVerifiedAt := some 2 }
    "admin-1" none 6

/-- Counterexample to C3 as stated: a DRAFT application with an uploaded
proof key whose storage object is confirmed absent (the HEAD request threw
NotFound, so objectExists yields false).  verifyPayment fails, but with the
application_not_submitted kind — the DRAFT guard fires before the storage
existence check — not with payment_proof_not_found. -/
theorem verifyPayment_draft_counterexample :
    paymentProofObjectExists (.error "NotFound") = .ok false ∧
    ({ baseApplication with paymentProofKey := some "proof-1" } : Application).status
      = .DRAFT ∧
    verifyPayment
        (some { baseApplication with paymentProofKey := some "proof-1" })
        "admin-1" (.error "NotFound") 5 =
      .error ⟨409, "application_not_submitted"⟩ ∧
    (⟨409, "application_not_submitted"⟩ : HttpErr) ≠
      ⟨409, "payment_proof_not_found"⟩ :=
  ⟨rfl, rfl, rfl, by decide⟩

/-- Claim C3 (amended): verifyPayment on an existing application whose
status is not DRAFT (a DRAFT application fails earlier with
application_not_submitted, before the storage check) distinguishes the
three failure cases with distinct stable kinds: null key fails
payment_proof_missing (for any storage state); key present with the object
confirmed absent (HEAD threw NotFound, objectExists false) fails
payment_proof_not_found; any other storage failure propagates as
storage_unavailable and is never treated as present or absent.  Every
failure is thrown before the update, so the record is unchanged; on
success paymentVerifiedAt is set to now and paymentVerifiedByUserId to the
acting admin.  The adapter paymentProofObjectExists maps only the NotFound
error to false, maps success to true, and re-throws everything else. -/
theorem verifyPayment_failure_taxonomy (app : Application) (adminId : String)
    (now : Nat) (hnd : app.status ≠ .DRAFT) :
    (app.paymentProofKey = none → ∀ headResult,
      verifyPayment (some app) adminId headResult now =
        .error ⟨409, "payment_proof_missing"⟩) ∧
    (app.paymentProofKey ≠ none →
      verifyPayment (some app) adminId (.error "NotFound") now =
        .error ⟨409, "payment_proof_not_found"⟩) ∧
    (app.paymentProofKey ≠ none → ∀ name, name ≠ "NotFound" →
      verifyPayment (some app) adminId (.error name) now =
        .error ⟨500, "storage_unavailable"⟩) ∧
    (app.paymentProofKey ≠ none →
      verifyPayment (some app) adminId (.ok ()) now =
        .ok { app with
              paymentVerifiedAt := some now
              paymentVerifiedByUserId := some adminId }) ∧
    (∀ name, name ≠ "NotFound" →
      paymentProofObjectExists (.error name) = .error name) ∧
    paymentProofObjectExists (.error "NotFound") = .ok false ∧
    (∀ u : Unit, paymentProofObjectExists (.ok u) = .ok true) := by
  refine ⟨?_, ?_, ?_, ?_, ?_, rfl, fun u => rfl⟩
  · intro hk headResult
    simp [verifyPayment, hk]
  · intro hk
    simp [verifyPayment, paymentProofObjectExists, hk, hnd]
  · intro hk name hname
    simp [verifyPayment, paymentProofObjectExists, hk, hnd, hname]
  · intro hk
    simp [verifyPayment, paymentProofObjectExists, hk, hnd]
  · intro name hname
    simp [paymentProofObjectExists, hname]

/-- Witness for C3 at a concrete PENDING application with an uploaded
proof key. -/
theorem verifyPayment_failure_taxonomy_witness :
    (({ baseApplication with
        status := AppStatus.PENDING
        paymentProofKey := some "proof-1" } : Application).paymentProofKey = none →
      ∀ headResult,
        verifyPayment
            (some { baseApplication with
                    status := AppStatus.PENDING
                    paymentProofKey := some "proof-1" })
            "admin-1" headResult 5 =
          .error ⟨409, "payment_proof_missing"⟩) ∧
    (({ baseApplication with
        status := AppStatus.PENDING
        paymentProofKey := some "proof-1" } : Application).paymentProofKey ≠ none →
      verifyPayment
          (some { baseApplication with
                  status := AppStatus.PENDING
                  paymentProofKey := some "proof-1" })
          "admin-1" (.error "NotFound") 5 =
        .error ⟨409, "payment_proof_not_found"⟩) ∧
    (({ baseApplication with
        status := AppStatus.PENDING
        paymentProofKey := some "proof-1" } : Application).paymentProofKey ≠ none →
      ∀ name, name ≠ "NotFound" →
      verifyPayment
          (some { baseApplication with
                  status := AppStatus.PENDING
                  paymentProofKey := some "proof-1" })
          "admin-1" (.error name) 5 =
        .error ⟨500, "storage_unavailable"⟩) ∧
    (({ baseApplication with
        status := AppStatus.PENDING
        paymentProofKey := some "proof-1" } : Application).paymentProofKey ≠ none →
      verifyPayment
          (some { baseApplication with
                  status := AppStatus.PENDING
                  paymentProofKey := some "proof-1" })
          "admin-1" (.ok ()) 5 =
        .ok { { baseApplication with
                status := AppStatus.PENDING
                paymentProofKey := some "proof-1" } with
              paymentVerifiedAt := some 5
              paymentVerifiedByUserId := some "admin-1" }) ∧
    (∀ name, name ≠ "NotFound" →
      paymentProofObjectExists (.error name) = .error name) ∧
    paymentProofObjectExists (.error "NotFound") = .ok false ∧
    (∀ u : Unit, paymentProofObjectExists (.ok u) = .ok true) :=
  verifyPayment_failure_taxonomy
    { baseApplication with
      status := AppStatus.PENDING
      paymentProofKey := some "proof-1" }
    "admin-1" 5 (by intro h; cases h)

lemma verifyPayment_ok_inv {app : Application} {adminId : String}
    {headResult : Except String Unit} {now : Nat} {r : Application}
    (h : verifyPayment (some app) adminId headResult now = .ok r) :
    r = { app with
          paymentVerifiedAt := some now
          paymentVerifiedByUserId := some adminId } ∧
    app.status ≠ .DRAFT := by
  by_cases hk : app.paymentProofKey = none
  · simp [verifyPayment, hk] at h
  · by_cases hs : app.status = .DRAFT
    · simp [verifyPayment, hk, hs] at h
    · refine ⟨?_, hs⟩
      cases he : paymentProofObjectExists headResult with
      | error e => simp [verifyPayment, hk, hs, he] at h
      | ok b =>
        cases b
        · simp [verifyPayment, hk, hs, he] at h
        · simp [verifyPayment, hk, hs, he] at h
          exact h.symm

lemma requestProofUploadUrl_ok_inv {app : Application} {objectKey : String}
    {signed : Except String SignedUpload} {now : Nat} {r : Application}
    (h : requestProofUploadUrl (some app) objectKey signed now = .ok r) :
    r = { app with
          paymentProofKey := some objectKey
          paymentProofUploadedAt := some now
          paymentVerifiedAt := none
          paymentVerifiedByUserId := none } ∧
    app.status ≠ .PENDING ∧ app.status ≠ .ACCEPTED := by
  by_cases hs : app.status = .PENDING ∨ app.status = .ACCEPTED
  · simp [requestProofUploadUrl, hs] at h
  · push_neg at hs
    cases signed with
    | error e => simp [requestProofUploadUrl, hs.1, hs.2] at h
    | ok s =>
      refine ⟨?_, hs.1, hs.2⟩
      simp [requestProofUploadUrl, hs.1, hs.2] at h
      exact h.symm

/-- Claim C4: for every application in DRAFT or REJECTED status, the
attach-payment-proof operation (once the storage gateway has produced a
signed upload URL) sets paymentProofKey to the freshly generated key, sets
paymentProofUploadedAt to now, and clears paymentVerifiedAt and
paymentVerifiedByUserId; for PENDING or ACCEPTED status it fails with
payment_proof_locked before its update, whatever the storage outcome; and
after a successful verifyPayment, a successful attach invalidates the
verification so a subsequent decide(ACCEPTED) without re-verification
fails with payment_not_verified. -/
theorem attach_proof_invalidates_verification (app a1 a2 : Application)
    (objectKey : String) (signed : SignedUpload) (adminId adminId2 : String)
    (note : Option String) (headResult : Except String Unit)
    (t1 t2 t3 : Nat) :
    (app.status = .DRAFT ∨ app.status = .REJECTED →
      requestProofUploadUrl (some app) objectKey (.ok signed) t1 =
        .ok { app with
              paymentProofKey := some objectKey
              paymentProofUploadedAt := some t1
              paymentVerifiedAt := none
              paymentVerifiedByUserId := none }) ∧
    (app.status = .PENDING ∨ app.status = .ACCEPTED →
      ∀ signedR, requestProofUploadUrl (some app) objectKey signedR t1 =
        .error ⟨409, "payment_proof_locked"⟩) ∧
    (verifyPayment (some app) adminId headResult t1 = .ok a1 →
      requestProofUploadUrl (some a1) objectKey (.ok signed) t2 = .ok a2 →
      decideApplication (some a2) adminId2 .ACCEPTED note t3 =
        .error ⟨409, "payment_not_verified"⟩) := by
  refine ⟨?_, ?_, ?_⟩
  · intro h
    have hlock : ¬(app.status = .PENDING ∨ app.status = .ACCEPTED) := by
      rcases h with h | h <;> rw [h] <;> decide
    push_neg at hlock
    simp [requestProofUploadUrl, hlock.1, hlock.2]
  · intro h signedR
    simp [requestProofUploadUrl, h]
  · intro hv ha
    obtain ⟨ha1, hnd⟩ := verifyPayment_ok_inv hv
    obtain ⟨ha2, _, _⟩ := requestProofUploadUrl_ok_inv ha
    subst ha1
    subst ha2
    simp [decideApplication, hnd]

/-- Witness for C4: a concrete REJECTED application goes through
verify-payment, re-uploads its proof, and the next accept attempt fails
for missing verification. -/
theorem attach_proof_invalidates_verification_witness :
    (({ baseApplication with
        status := AppStatus.REJECTED
        paymentProofKey := some "proof-1" } : Application).status = .DRAFT ∨
     ({ baseApplication with
        status := AppStatus.REJECTED
        paymentProofKey := some "proof-1" } : Application).status = .REJECTED →
      requestProofUploadUrl
          (some { baseApplication with
                  status := AppStatus.REJECTED
                  paymentProofKey := some "proof-1" })
          "proof-2" (.ok ⟨"https://upload", 600⟩) 2 =
        .ok { { baseApplication with
                status := AppStatus.REJECTED
                paymentProofKey := some "proof-1" } with
              paymentProofKey := some "proof-2"
              paymentProofUploadedAt := some 2
              paymentVerifiedAt := none
              paymentVerifiedByUserId := none }) ∧
    (({ baseApplication with
        status := AppStatus.REJECTED
        paymentProofKey := some "proof-1" } : Application).status = .PENDING ∨
     ({ baseApplication with
        status := AppStatus.REJECTED
        paymentProofKey := some "proof-1" } : Application).status = .ACCEPTED →
      ∀ signedR, requestProofUploadUrl
          (some { baseApplication with
                  status := AppStatus.REJECTED
                  paymentProofKey := some "proof-1" })
          "proof-2" signedR 2 =
        .error ⟨409, "payment_proof_locked"⟩) ∧
    (verifyPayment
        (some { baseApplication with
                status := AppStatus.REJECTED
                paymentProofKey := some "proof-1" })
        "admin-1" (.ok ()) 2 =
      .ok { { baseApplication with
              status := AppStatus.REJECTED
              paymentProofKey := some "proof-1" } with
            paymentVerifiedAt := some 2
            paymentVerifiedByUserId := some "admin-1" } →
      requestProofUploadUrl
          (some { { baseApplication with
                    status := AppStatus.REJECTED
                    paymentProofKey := some "proof-1" } with
                  paymentVerifiedAt := some 2
                  paymentVerifiedByUserId := some "admin-1" })
          "proof-2" (.ok ⟨"https://upload", 600⟩) 3 =
        .ok { { { baseApplication with
                  status := AppStatus.REJECTED
                  paymentProofKey := some "proof-1" } with
                paymentVerifiedAt := some 2
                paymentVerifiedByUserId := some "admin-1" } with
              paymentProofKey := some "proof-2"
              paymentProofUploadedAt := some 3
              paymentVerifiedAt := none
              paymentVerifiedByUserId := none } →
      decideApplication
          (some { { { baseApplication with
                      status := AppStatus.REJECTED
                      paymentProofKey := some "proof-1" } with
                    paymentVerifiedAt := some 2
                    paymentVerifiedByUserId := some "admin-1" } with
                  paymentProofKey := some "proof-2"
                  paymentProofUploadedAt := some 3
                  paymentVerifiedAt := none
                  paymentVerifiedByUserId := none })
          "admin-2" .ACCEPTED none 4 =
        .error ⟨409, "payment_not_verified"⟩) :=
  attach_proof_invalidates_verification
    { baseApplication with
      status := AppStatus.REJECTED
      paymentProofKey := some "proof-1" }
    { { baseApplication with
        status := AppStatus.REJECTED
        paymentProofKey := some "proof-1" } with
      paymentVerifiedAt := some 2
      paymentVerifiedByUserId := some "admin-1" }
    { { { baseApplication with
          status := AppStatus.REJECTED
          paymentProofKey := some "proof-1" } with
        paymentVerifiedAt := some 2
        paymentVerifiedByUserId := some "admin-1" } with
      paymentProofKey := some "proof-2"
      paymentProofUploadedAt := some 3
      paymentVerifiedAt := none
      paymentVerifiedByUserId := none }
    "proof-2" ⟨"https://upload", 600⟩ "admin-1" "admin-2" none (.ok ()) 2 3 4

/-- Claim C8: startApplication is idempotent — when a record for the user
exists, start returns it unchanged with created = false and the table is
untouched; when none exists it creates exactly one record with empty
answers and status DRAFT; and the storage-layer unique index
(Application_userId_key) makes any insert that would produce a second
record for a userId fail, so at most one Application per userId can ever
exist. -/
theorem startApplication_idempotent_and_unique (db : List Application)
    (userId newId : String) (now : Nat) :
    (∀ a0, findApplicationByUserId db userId = some a0 →
      startApplication db userId newId now = .ok (db, false, a0)) ∧
    (findApplicationByUserId db userId = none →
      startApplication db userId newId now =
        .ok (db ++ [newDraftApplication userId newId now], true,
             newDraftApplication userId newId now)) ∧
    (newDraftApplication userId newId now).answersJson = [] ∧
    (newDraftApplication userId newId now).status = .DRAFT ∧
    (∀ app db2, dbCreateApplication db app = .ok db2 →
      List.Pairwise (fun a b => a.userId ≠ b.userId) db →
      List.Pairwise (fun a b => a.userId ≠ b.userId) db2) := by
  refine ⟨?_, ?_, rfl, rfl, ?_⟩
  · intro a0 h
    simp [startApplication, h]
  · intro h
    have hall : ∀ a ∈ db, ¬(a.userId == userId) = true :=
      fun a ha => by simpa using List.find?_eq_none.mp h a ha
    have hany : (db.any fun a =>
        a.userId == (newDraftApplication userId newId now).userId) = false := by
      rw [Bool.eq_false_iff]
      intro hc
      obtain ⟨a, ha, hpa⟩ := List.any_eq_true.mp hc
      exact hall a ha hpa
    simp [startApplication, h, dbCreateApplication, hany]
  · intro app db2 hok hpw
    unfold dbCreateApplication at hok
    by_cases hany : (db.any fun a => a.userId == app.userId) = true
    · simp [hany] at hok
    · simp [hany] at hok
      subst hok
      rw [List.pairwise_append]
      refine ⟨hpw, List.pairwise_singleton _ _, ?_⟩
      intro a ha b hb
      have hb2 : b = app := List.mem_singleton.mp hb
      subst hb2
      intro heq
      exact hany (List.any_eq_true.mpr ⟨a, ha, beq_iff_eq.mpr heq⟩)

/-- Witness for C8 on the empty table and on a one-row table for the same
user. -/
theorem startApplication_idempotent_and_unique_witness :
    (∀ a0, findApplicationByUserId [] "user-1" = some a0 →
      startApplication [] "user-1" "app-1" 1 = .ok ([], false, a0)) ∧
    (findApplicationByUserId [] "user-1" = none →
      startApplication [] "user-1" "app-1" 1 =
        .ok ([] ++ [newDraftApplication "user-1" "app-1" 1], true,
             newDraftApplication "user-1" "app-1" 1)) ∧
    (newDraftApplication "user-1" "app-1" 1).answersJson = [] ∧
    (newDraftApplication "user-1" "app-1" 1).status = .DRAFT ∧
    (∀ app db2, dbCreateApplication [] app = .ok db2 →
      List.Pairwise (fun a b => a.userId ≠ b.userId) ([] : List Application) →
      List.Pairwise (fun a b => a.userId ≠ b.userId) db2) :=
  startApplication_idempotent_and_unique [] "user-1" "app-1" 1

end Ases
